import Mathlib

/-!
Verification development for the resource-monitor sampler in
`Monitor/resMon.py` of the Elasecutor repository.

The three monitor classes (`ResMonitor`, `NetworkInterfaceMonitor`,
`ProcessSetMonitor`) are embedded as Lean structures holding exactly the
mutable state the Python objects carry, and each `poll_stat` method is
embedded as a pure function from (state, StatSource readings) to
(row written, new state).  The `sched`-based main loop is embedded as a
tick-trace function, and the `try/except KeyboardInterrupt/finally`
control flow of `main` is embedded as a case analysis over the possible
termination paths, including Python's unbound-local semantics in the
`finally` block.

Numeric conventions: Python integers are `Int`; the Python `>> 20`
conversion to MB is arithmetic shift, i.e. floor division by 2^20;
Python floats (CPU and memory percentages) are modelled as `ℚ`, which is
exact for the additions and the single multiplication the code performs.
-/

/-- Python `x >> 20` on an int: arithmetic shift right, i.e. floor
division by 2^20 (1048576). -/
def shr20 (x : Int) : Int := x.fdiv (2 ^ 20)

/-- Snapshot returned by `psutil.disk_io_counters()` (the fields
`resMon.py` reads). -/
structure DiskIOCounters where
  read_count : Int
  write_count : Int
  read_bytes : Int
  write_bytes : Int
  read_time : Int
  write_time : Int
deriving DecidableEq

/-- Snapshot returned by `psutil.virtual_memory()` (the fields read). -/
structure VirtualMemory where
  percent : ℚ
  total : Int
  used : Int
  available : Int
  free : Int
deriving DecidableEq

/-- Snapshot returned by `psutil.swap_memory()` (the fields read). -/
structure SwapMemory where
  percent : ℚ
  total : Int
  used : Int
  free : Int
deriving DecidableEq

/-- Mutable state of a `ResMonitor` instance: core count fixed at
construction, the retained previous disk snapshot, and the start time
(lines 13-19 of `resMon.py`).  The sink itself carries no state the
claims mention beyond the rows written, which `poll_stat` returns. -/
structure ResMonitor where
  ncores : Nat
  prev_disk_stat : DiskIOCounters
  starttime : Int
deriving DecidableEq

/-- The StatSource readings consumed by one `ResMonitor.poll_stat` call
(lines 44-50): wall-clock timestamp, whole-system CPU percent, per-core
CPU percents, memory, swap and disk counters. -/
structure ResPollInput where
  timestamp : Int
  total_cpu_percent : ℚ
  percpu_percent : List ℚ
  mem_stat : VirtualMemory
  swap_stat : SwapMemory
  disk_stat : DiskIOCounters
deriving DecidableEq

/-- The row `ResMonitor.poll_stat` writes, fields in the order of the
f-string at lines 52-64 of `resMon.py`. -/
structure ResRow where
  timestamp : Int
  uptime : Int
  ncores : Nat
  cpuAgg : ℚ
  percpu : List ℚ
  memPercent : ℚ
  memTotalMB : Int
  memUsedMB : Int
  memAvailMB : Int
  memFreeMB : Int
  swapPercent : ℚ
  swapTotalMB : Int
  swapUsedMB : Int
  swapFreeMB : Int
  ioRead : Int
  ioWrite : Int
  ioReadMB : Int
  ioWriteMB : Int
  ioReadMs : Int
  ioWriteMs : Int
deriving DecidableEq

/-- Embedding of `ResMonitor.poll_stat` (lines 43-69): builds the row
from the current readings and the retained previous disk snapshot, then
replaces the retained snapshot with the current one.  The row is written
before the state update in the source; here the returned row is the one
written and the returned state is the post-write state. -/
def ResMonitor.poll_stat (self : ResMonitor) (inp : ResPollInput) :
    ResRow × ResMonitor :=
  ({ timestamp := inp.timestamp
     uptime := inp.timestamp - self.starttime
     ncores := self.ncores
     cpuAgg := inp.total_cpu_percent * (self.ncores : ℚ)
     percpu := inp.percpu_percent
     memPercent := inp.mem_stat.percent
     memTotalMB := shr20 inp.mem_stat.total
     memUsedMB := shr20 inp.mem_stat.used
     memAvailMB := shr20 inp.mem_stat.available
     memFreeMB := shr20 inp.mem_stat.free
     swapPercent := inp.swap_stat.percent
     swapTotalMB := shr20 inp.swap_stat.total
     swapUsedMB := shr20 inp.swap_stat.used
     swapFreeMB := shr20 inp.swap_stat.free
     ioRead := inp.disk_stat.read_count - self.prev_disk_stat.read_count
     ioWrite := inp.disk_stat.write_count - self.prev_disk_stat.write_count
     ioReadMB := shr20 (inp.disk_stat.read_bytes - self.prev_disk_stat.read_bytes)
     ioWriteMB := shr20 (inp.disk_stat.write_bytes - self.prev_disk_stat.write_bytes)
     ioReadMs := inp.disk_stat.read_time - self.prev_disk_stat.read_time
     ioWriteMs := inp.disk_stat.write_time - self.prev_disk_stat.write_time },
   { self with prev_disk_stat := inp.disk_stat })

/-- Snapshot for one interface from `psutil.net_io_counters(pernic=True)`
(the fields `resMon.py` reads). -/
structure NetIOCounters where
  bytes_sent : Int
  bytes_recv : Int
  packets_sent : Int
  packets_recv : Int
  errin : Int
  errout : Int
  dropin : Int
  dropout : Int
deriving DecidableEq

/-- Mutable state of a `NetworkInterfaceMonitor` instance: the monitored
interface names (the keys of `nic_files`; each owns its sink), the
retained previous per-interface snapshot mapping, and the start time
(lines 74-83 of `resMon.py`).  The per-interface mapping returned by the
StatSource is modelled as a function from interface name to counters. -/
structure NetworkInterfaceMonitor where
  nic_files : List String
  prev_stat : String → NetIOCounters
  starttime : Int

/-- The row written to one interface's sink, fields in the order of the
f-string at lines 109-117 of `resMon.py`. -/
structure NicRow where
  timestamp : Int
  uptime : Int
  nic : String
  sentMB : Int
  recvMB : Int
  sentPkts : Int
  recvPkts : Int
  errIn : Int
  errOut : Int
  dropIn : Int
  dropOut : Int
deriving DecidableEq

/-- One interface's row, built from that interface's current and
previous counters (lines 107-117 of `resMon.py`). -/
def NetworkInterfaceMonitor.mkRow (timestamp uptime : Int) (nic : String)
    (curr prev : NetIOCounters) : NicRow :=
  { timestamp := timestamp
    uptime := uptime
    nic := nic
    sentMB := shr20 (curr.bytes_sent - prev.bytes_sent)
    recvMB := shr20 (curr.bytes_recv - prev.bytes_recv)
    sentPkts := curr.packets_sent - prev.packets_sent
    recvPkts := curr.packets_recv - prev.packets_recv
    errIn := curr.errin - prev.errin
    errOut := curr.errout - prev.errout
    dropIn := curr.dropin - prev.dropin
    dropOut := curr.dropout - prev.dropout }

/-- Embedding of `NetworkInterfaceMonitor.poll_stat` (lines 101-120):
`net_stat` is the whole pernic mapping read once from the StatSource;
for each monitored interface a row is computed from that interface's
current and previous counters and written to that interface's own sink
(each returned row is tagged with the interface name owning the sink);
afterwards the whole retained previous mapping is replaced by `net_stat`
in a single assignment. -/
def NetworkInterfaceMonitor.poll_stat (self : NetworkInterfaceMonitor)
    (timestamp : Int) (net_stat : String → NetIOCounters) :
    List (String × NicRow) × NetworkInterfaceMonitor :=
  (self.nic_files.map (fun nic =>
      (nic, NetworkInterfaceMonitor.mkRow timestamp (timestamp - self.starttime) nic
              (net_stat nic) (self.prev_stat nic))),
   { self with prev_stat := net_stat })

/-- Embedding of the monitored-set computation in
`NetworkInterfaceMonitor.__init__` (lines 76-79): requested names the
StatSource does not report in `psutil.net_if_stats()` are dropped with
no error; if nothing remains the constructor raises
`ValueError('No NIC to monitor.')`.  Returns the monitored names on
success; `nics` is `args.nic`, with `none` for an absent option (the
source evaluates `nics or []`). -/
def NetworkInterfaceMonitor.initNics (nics : Option (List String))
    (existing : List String) : Except String (List String) :=
  let kept := (nics.getD []).filter (fun n => n ∈ existing)
  if kept = [] then .error "No NIC to monitor." else .ok kept

/-- Helper for the Python substring test: does the first character list
start the second? -/
def startsWithSeq : List Char → List Char → Bool
  | [], _ => true
  | _ :: _, [] => false
  | a :: as, b :: bs => a == b && startsWithSeq as bs

/-- Python `needle in hay` on strings, over their character lists: true
when `needle` occurs as a contiguous substring of `hay`. -/
def containsSeq (needle : List Char) : List Char → Bool
  | [] => needle.isEmpty
  | c :: rest => startsWithSeq needle (c :: rest) || containsSeq needle rest

/-- Result of `proc.io_counters()` (the fields `resMon.py` reads). -/
structure ProcIOCounters where
  read_count : Int
  write_count : Int
  read_bytes : Int
  write_bytes : Int
deriving DecidableEq

/-- The per-process metric reads of `ProcessSetMonitor._stat_proc`
(lines 162-165): io counters, resident set size, memory percent, cpu
percent. -/
structure ProcSnapshot where
  io_counters : ProcIOCounters
  mem_rss : Int
  mem_percent : ℚ
  cpu_percent : ℚ
deriving DecidableEq

/-- One process as yielded by `psutil.process_iter(attrs=['pid','name'])`:
its pid and name; `infoOk := false` models the
`NoSuchProcess`/`AccessDenied` caught by the enumeration loop's own
try (lines 186-194, `continue`); `stat := none` models any of the four
metric reads of `_stat_proc` raising `NoSuchProcess`/`AccessDenied`
(lines 161-167). -/
structure Proc where
  pid : Nat
  name : String
  infoOk : Bool
  stat : Option ProcSnapshot
deriving DecidableEq

/-- `ProcessSetMonitor.BASE_STAT` (lines 125-133): metric names with
zero defaults, in source order. -/
def ProcessSetMonitor.BASE_STAT : List (String × ℚ) :=
  [("io.read", 0), ("io.write", 0), ("io.read.MB", 0), ("io.write.MB", 0),
   ("mem.rss.MB", 0), ("%MEM", 0), ("%CPU", 0)]

/-- The metric dict `_stat_proc` returns on success (lines 169-177). -/
def ProcessSetMonitor.statDict (s : ProcSnapshot) : List (String × ℚ) :=
  [("io.read", (s.io_counters.read_count : ℚ)),
   ("io.write", (s.io_counters.write_count : ℚ)),
   ("io.read.MB", (shr20 s.io_counters.read_bytes : ℚ)),
   ("io.write.MB", (shr20 s.io_counters.write_bytes : ℚ)),
   ("mem.rss.MB", (shr20 s.mem_rss : ℚ)),
   ("%MEM", s.mem_percent),
   ("%CPU", s.cpu_percent)]

/-- Mutable state of a `ProcessSetMonitor` instance: explicit pid set,
keyword list and start time (lines 135-143). -/
structure ProcessSetMonitor where
  pids : List Nat
  keywords : List String
  starttime : Int
deriving DecidableEq

/-- The candidate test at line 188 of `resMon.py`: the pid is in the
explicit set, or some configured keyword occurs as a substring of the
lowercased process name (lower-casing modelled per character; process
names in scope are ASCII). -/
def procMatches (pids : List Nat) (keywords : List String) (p : Proc) : Bool :=
  pids.contains p.pid
    || keywords.any (fun k => containsSeq k.data (p.name.data.map Char.toLower))

/-- Embedding of `ProcessSetMonitor._stat_proc` (lines 156-177): returns
early when the pid was already visited this poll; otherwise marks the
pid visited and attempts the metric reads, yielding `none` when they
raise (the caught exceptions) and the metric dict otherwise. -/
def ProcessSetMonitor.statProc (p : Proc) (visited : List Nat) :
    Option (List (String × ℚ)) × List Nat :=
  if visited.contains p.pid then (none, visited)
  else
    match p.stat with
    | none => (none, p.pid :: visited)
    | some s => (some (ProcessSetMonitor.statDict s), p.pid :: visited)

/-- The accumulation loop over `proc_stat.items()` at lines 191-192:
`curr_stat[key] += value` on a `defaultdict(int)`, modelled as one
pointwise update of the aggregate function per pair, in order. -/
def addDict (curr : String → ℚ) : List (String × ℚ) → (String → ℚ)
  | [] => curr
  | kv :: rest =>
      addDict (fun key => if key = kv.1 then curr key + kv.2 else curr key) rest

/-- The enumeration loop of `ProcessSetMonitor.poll_stat` (lines
185-194): processes are visited in order; one whose info read raises is
skipped by the `continue`; a matched process goes through `_stat_proc`
and, when that yields a dict, its values are added into the
aggregate. -/
def pollLoop (pids : List Nat) (keywords : List String) :
    List Proc → List Nat → (String → ℚ) → (String → ℚ)
  | [], _, curr => curr
  | p :: rest, visited, curr =>
    if p.infoOk then
      if procMatches pids keywords p then
        match ProcessSetMonitor.statProc p visited with
        | (some d, v') => pollLoop pids keywords rest v' (addDict curr d)
        | (none, v') => pollLoop pids keywords rest v' curr
      else pollLoop pids keywords rest visited curr
    else pollLoop pids keywords rest visited curr

/-- CPython string comparison: lexicographic on code points. -/
def charListLt : List Char → List Char → Bool
  | [], [] => false
  | [], _ :: _ => true
  | _ :: _, [] => false
  | a :: as, b :: bs => Nat.blt a.toNat b.toNat || (a == b && charListLt as bs)

/-- Insertion into an ascending list under Python string comparison. -/
def insertStr (s : String) : List String → List String
  | [] => [s]
  | t :: rest => if charListLt s.data t.data then s :: t :: rest else t :: insertStr s rest

/-- Python `sorted()` on a list of strings (ascending; the `BASE_STAT`
keys are distinct, so any correct sort agrees with CPython's). -/
def sortStr (l : List String) : List String := l.foldr insertStr []

/-- `sorted(self.BASE_STAT.keys())`, used for the header (line 141) and
for the value order of every row (line 196). -/
def ProcessSetMonitor.sortedKeys : List String :=
  sortStr (ProcessSetMonitor.BASE_STAT.map Prod.fst)

/-- The row `ProcessSetMonitor.poll_stat` writes (lines 196-197):
timestamp, uptime, and the aggregate of each metric, in sorted
metric-name order. -/
structure PSRow where
  timestamp : Int
  uptime : Int
  values : List ℚ
deriving DecidableEq

/-- Embedding of `ProcessSetMonitor.poll_stat` (lines 179-199): the
visited set and the aggregate `defaultdict` are created empty at the
start of every call, the enumeration is folded through them, and one row
is written with the aggregates read back in sorted key order (keys never
written read as the defaultdict's 0).  The function is total: no
exception escapes. -/
def ProcessSetMonitor.poll_stat (self : ProcessSetMonitor) (timestamp : Int)
    (procs : List Proc) : PSRow :=
  let curr_stat := pollLoop self.pids self.keywords procs [] (fun _ => 0)
  ⟨timestamp, timestamp - self.starttime,
   ProcessSetMonitor.sortedKeys.map (fun k => curr_stat k)⟩

/-- Specification-side view of one poll: the subsequence of processes
that actually contribute, namely the first candidate occurrence of each
pid not already visited. -/
def matchedOnce (pids : List Nat) (keywords : List String) :
    List Proc → List Nat → List Proc
  | [], _ => []
  | p :: rest, visited =>
    if p.infoOk = true ∧ procMatches pids keywords p = true
        ∧ visited.contains p.pid = false then
      p :: matchedOnce pids keywords rest (p.pid :: visited)
    else matchedOnce pids keywords rest visited

/-- Value of one metric key in a metric dict (the dicts `statDict`
builds have distinct keys). -/
def dictVal (d : List (String × ℚ)) (key : String) : ℚ :=
  (d.map (fun kv => if key = kv.1 then kv.2 else 0)).sum

/-- What one process adds to the aggregate at one key: its metric value
when the metric reads succeeded, and 0 when they raised. -/
def contrib (p : Proc) (key : String) : ℚ :=
  match p.stat with
  | none => 0
  | some s => dictVal (ProcessSetMonitor.statDict s) key

/-- The monitor a scheduled event polls. -/
inductive MonKind
  | psMon
  | nicMon
  | resMon
deriving DecidableEq

/-- One `sched` event as entered by `scheduler.enterabs`: absolute fire
time, priority, target monitor (lines 241-245 of `resMon.py`). -/
structure SchedEvent where
  time : Nat
  priority : Nat
  mon : MonKind
deriving DecidableEq

/-- The events one loop iteration enters for tick `i` (lines 240-245),
in source order: the ResMonitor poll at priority 2 and, when enabled,
the NetworkInterfaceMonitor poll at priority 1 and the
ProcessSetMonitor poll at priority 0 — all at absolute time
`starttime + i * delay`. -/
def tickEvents (starttime delay : Nat) (enableNic enablePs : Bool) (i : Nat) :
    List SchedEvent :=
  [⟨starttime + i * delay, 2, MonKind.resMon⟩]
    ++ (if enableNic then [⟨starttime + i * delay, 1, MonKind.nicMon⟩] else [])
    ++ (if enablePs then [⟨starttime + i * delay, 0, MonKind.psMon⟩] else [])

/-- The order of the `sched` priority queue: earlier fire time first,
ties broken by smaller priority number (the ordering of the module's
event tuples). -/
def evLE (a b : SchedEvent) : Prop :=
  a.time < b.time ∨ (a.time = b.time ∧ a.priority ≤ b.priority)

instance (a b : SchedEvent) : Decidable (evLE a b) := by
  unfold evLE
  infer_instance

/-- Insertion into a queue ordered by `evLE`. -/
def insertEv (e : SchedEvent) : List SchedEvent → List SchedEvent
  | [] => [e]
  | f :: rest => if evLE e f then e :: f :: rest else f :: insertEv e rest

/-- The order in which `scheduler.run` executes the entered events:
sorted by (fire time, priority).  Execution is strictly sequential —
`sched` runs each action to completion before popping the next, so no
two polls ever run concurrently. -/
def runOrder (l : List SchedEvent) : List SchedEvent := l.foldr insertEv []

/-- One observed tick of the main loop: its index, the events entered
for it, and the wall-clock time at which the scheduler reached the
tick's fire time (equal to the scheduled time unless earlier polls
overran it). -/
structure TickTrace where
  tick : Nat
  events : List SchedEvent
  fireClock : Nat
deriving DecidableEq

/-- Embedding of the main scheduling loop (lines 238-247 of
`resMon.py`): `starttime` is read once before the loop; tick `i` enters
its events at absolute time `starttime + i * delay`; `scheduler.run`
blocks until that time (or starts immediately when the clock is already
past it), the tick's polls consume the next entry of `durations`, and
then `i` increases by 1.  One `TickTrace` is recorded per entry of
`durations`. -/
def loopTrace (starttime delay : Nat) (enableNic enablePs : Bool) :
    Nat → Nat → List Nat → List TickTrace
  | _, _, [] => []
  | i, clock, dur :: rest =>
    ⟨i, tickEvents starttime delay enableNic enablePs i,
     max clock (starttime + i * delay)⟩ ::
      loopTrace starttime delay enableNic enablePs (i + 1)
        (max clock (starttime + i * delay) + dur) rest

/-- How a run of `main` terminates: an interrupt inside
`ResMonitor.__init__` (after its sink is opened, before `rm` is bound),
an interrupt inside `NetworkInterfaceMonitor.__init__` (after the
per-NIC files are opened, before `nm` is bound), an interrupt caught
while the loop is running, or a sink write error propagating out of a
poll. -/
inductive TermPath
  | intrDuringRmInit
  | intrDuringNmInit
  | intrMidPoll
  | sinkWriteError
deriving DecidableEq

/-- The inputs `main` runs under: `args.nic` (None when the option is
absent), the interface names the StatSource reports as existing, the
explicit pid set, and the termination path of this run. -/
structure MainCfg where
  nicArg : Option (List String)
  existingNics : List String
  ps_pids : List Nat
  term : TermPath
deriving DecidableEq

/-- What a terminated run of `main` did: whether the ResMonitor sink was
opened and how often it was closed, how many per-NIC files were opened
and closed, the same for the ProcessSetMonitor, whether the interrupt
notice was printed, whether the process exited with success status, and
whether the scheduling loop was ever entered. -/
structure MainOutcome where
  rmOpened : Bool
  rmClosed : Nat
  nmFilesOpened : Nat
  nmFilesClosed : Nat
  pmOpened : Bool
  pmClosed : Nat
  noticePrinted : Bool
  exitSuccess : Bool
  loopEntered : Bool
deriving DecidableEq

/-- Embedding of the control flow of `main` (lines 228-255 of
`resMon.py`) under Python semantics, one case per termination path.  The
locals `rm`, `nm`, `pm` are unbound until their assignments complete; a
`finally` block that evaluates an unbound local raises
`UnboundLocalError`, which aborts the rest of the cleanup and makes the
process exit with a non-zero status.
Case by case:
an interrupt inside `ResMonitor.__init__` after the sink is opened
(line 16) but before `rm` is bound is caught, the notice is printed,
then the `finally` evaluates `rm.close()` with `rm` unbound — nothing is
closed and the exit status is non-zero;
when `args.nic` is given but no requested name exists, the
`ValueError` from `NetworkInterfaceMonitor.__init__` (raised before any
per-NIC file is opened) propagates: the `finally` closes `rm` once, then
evaluates `nm.close()` (`enable_nic_mon` is True) with `nm` unbound —
non-zero exit, loop never entered;
an interrupt inside `NetworkInterfaceMonitor.__init__` after the
per-NIC files are opened but before `nm` is bound: notice printed, `rm`
closed once, then `nm.close()` raises `UnboundLocalError`, so the opened
per-NIC files are never closed;
an interrupt once construction finished: caught, notice printed, every
constructed monitor closed exactly once, `main` returns normally (exit
status zero);
a sink write error: propagates uncaught, the `finally` closes every
constructed monitor exactly once, exit status non-zero.
The per-NIC file counts assume the requested names are distinct, as the
keys of the `nic_files` dict are. -/
def mainExec (cfg : MainCfg) : MainOutcome :=
  if cfg.term = TermPath.intrDuringRmInit then
    ⟨true, 0, 0, 0, false, 0, true, false, false⟩
  else
    let enableNic := cfg.nicArg.isSome
    let resolved := (cfg.nicArg.getD []).filter (fun n => n ∈ cfg.existingNics)
    let enablePs := !cfg.ps_pids.isEmpty
    if enableNic ∧ resolved = [] then
      ⟨true, 1, 0, 0, false, 0, false, false, false⟩
    else if cfg.term = TermPath.intrDuringNmInit ∧ enableNic then
      ⟨true, 1, resolved.length, 0, false, 0, true, false, false⟩
    else if cfg.term = TermPath.sinkWriteError then
      ⟨true, 1, if enableNic then resolved.length else 0,
       if enableNic then resolved.length else 0,
       enablePs, if enablePs then 1 else 0, false, false, true⟩
    else
      ⟨true, 1, if enableNic then resolved.length else 0,
       if enableNic then resolved.length else 0,
       enablePs, if enablePs then 1 else 0, true, true, true⟩

/-- Claim C1: every disk delta field of a `ResMonitor` row equals the
current counter minus the counter retained from the immediately
preceding poll, the retained snapshot is replaced by the current one
once the row is out, hence across two consecutive polls the second row
differences the two polls' snapshots (never cumulative-since-start);
and on the spec's concrete example the row carries
io.read=2, io.write=0, io.read.MB=2, io.write.MB=0, io.read.ms=50,
io.write.ms=0. -/
theorem resMonitor_disk_deltas_prev_poll :
    (∀ (self : ResMonitor) (inp : ResPollInput),
      (self.poll_stat inp).1.ioRead
          = inp.disk_stat.read_count - self.prev_disk_stat.read_count ∧
      (self.poll_stat inp).1.ioWrite
          = inp.disk_stat.write_count - self.prev_disk_stat.write_count ∧
      (self.poll_stat inp).1.ioReadMB
          = shr20 (inp.disk_stat.read_bytes - self.prev_disk_stat.read_bytes) ∧
      (self.poll_stat inp).1.ioWriteMB
          = shr20 (inp.disk_stat.write_bytes - self.prev_disk_stat.write_bytes) ∧
      (self.poll_stat inp).1.ioReadMs
          = inp.disk_stat.read_time - self.prev_disk_stat.read_time ∧
      (self.poll_stat inp).1.ioWriteMs
          = inp.disk_stat.write_time - self.prev_disk_stat.write_time ∧
      (self.poll_stat inp).2.prev_disk_stat = inp.disk_stat)
    ∧
    (∀ (self : ResMonitor) (inp1 inp2 : ResPollInput),
      (((self.poll_stat inp1).2.poll_stat inp2).1.ioRead
          = inp2.disk_stat.read_count - inp1.disk_stat.read_count) ∧
      (((self.poll_stat inp1).2.poll_stat inp2).1.ioWrite
          = inp2.disk_stat.write_count - inp1.disk_stat.write_count) ∧
      (((self.poll_stat inp1).2.poll_stat inp2).1.ioReadMB
          = shr20 (inp2.disk_stat.read_bytes - inp1.disk_stat.read_bytes)) ∧
      (((self.poll_stat inp1).2.poll_stat inp2).1.ioWriteMB
          = shr20 (inp2.disk_stat.write_bytes - inp1.disk_stat.write_bytes)) ∧
      (((self.poll_stat inp1).2.poll_stat inp2).1.ioReadMs
          = inp2.disk_stat.read_time - inp1.disk_stat.read_time) ∧
      (((self.poll_stat inp1).2.poll_stat inp2).1.ioWriteMs
          = inp2.disk_stat.write_time - inp1.disk_stat.write_time))
    ∧
    (let row := (ResMonitor.poll_stat ⟨2, ⟨10, 5, 1048576, 0, 100, 0⟩, 0⟩
        ⟨0, 0, [], ⟨0, 0, 0, 0, 0⟩, ⟨0, 0, 0, 0⟩, ⟨12, 5, 3145728, 0, 150, 0⟩⟩).1
     row.ioRead = 2 ∧ row.ioWrite = 0 ∧ row.ioReadMB = 2 ∧
     row.ioWriteMB = 0 ∧ row.ioReadMs = 50 ∧ row.ioWriteMs = 0) := by
  refine ⟨fun self inp => ⟨rfl, rfl, rfl, rfl, rfl, rfl, rfl⟩,
          fun self inp1 inp2 => ⟨rfl, rfl, rfl, rfl, rfl, rfl⟩,
          ⟨by decide, by decide, by decide, by decide, by decide, by decide⟩⟩

/-- Claim C6: the aggregate %CPU field of every `ResMonitor` row is the
whole-system CPU percentage times the core count fixed at construction;
the per-core percentages are reported as given, and there are inputs on
which the aggregate differs from the sum of the reported per-core
percentages, so the field is not that sum. -/
theorem resMonitor_cpu_agg_formula :
    (∀ (self : ResMonitor) (inp : ResPollInput),
      (self.poll_stat inp).1.cpuAgg = inp.total_cpu_percent * (self.ncores : ℚ) ∧
      (self.poll_stat inp).1.percpu = inp.percpu_percent)
    ∧
    (∃ (self : ResMonitor) (inp : ResPollInput),
      (self.poll_stat inp).1.cpuAgg ≠ ((self.poll_stat inp).1.percpu).sum) := by
  refine ⟨fun self inp => ⟨rfl, rfl⟩,
    ⟨⟨2, ⟨0, 0, 0, 0, 0, 0⟩, 0⟩,
     ⟨0, 50, [10, 20], ⟨0, 0, 0, 0, 0⟩, ⟨0, 0, 0, 0⟩, ⟨0, 0, 0, 0, 0, 0⟩⟩,
     by norm_num [ResMonitor.poll_stat]⟩⟩

/-- Claim C7: each monitored interface's row is computed from that same
interface's own previous snapshot and current counters only, and is
written to that interface's own sink (the rows come tagged with the
owning interface names, one per monitored interface in order); after the
rows of one poll are produced the retained previous-snapshot state is
replaced for all interfaces at once by a single assignment of the whole
per-interface mapping; on the spec's eth0 example the row reports
sent.MB=1, recv.MB=1, sent.pkts=5, recv.pkts=5, err.in=0, err.out=0,
drop.in=0, drop.out=0. -/
theorem nicMonitor_per_interface_deltas :
    (∀ (self : NetworkInterfaceMonitor) (ts : Int)
       (net_stat : String → NetIOCounters) (nic : String) (row : NicRow),
        (nic, row) ∈ (self.poll_stat ts net_stat).1 →
        row = NetworkInterfaceMonitor.mkRow ts (ts - self.starttime) nic
                (net_stat nic) (self.prev_stat nic))
    ∧
    (∀ (self : NetworkInterfaceMonitor) (ts : Int)
       (net_stat : String → NetIOCounters),
        (self.poll_stat ts net_stat).2.prev_stat = net_stat ∧
        (self.poll_stat ts net_stat).2.nic_files = self.nic_files ∧
        (self.poll_stat ts net_stat).1.map Prod.fst = self.nic_files)
    ∧
    (NetworkInterfaceMonitor.mkRow 20 10 "eth0"
        ⟨2097152, 3145728, 15, 25, 0, 0, 0, 0⟩
        ⟨1048576, 2097152, 10, 20, 0, 0, 0, 0⟩
      = ⟨20, 10, "eth0", 1, 1, 5, 5, 0, 0, 0, 0⟩) := by
  refine ⟨?_, fun self ts ns =>
      ⟨rfl, rfl, by
        simp [NetworkInterfaceMonitor.poll_stat, List.map_map, Function.comp_def]⟩,
    by decide⟩
  intro self ts ns nic row h
  simp only [NetworkInterfaceMonitor.poll_stat, List.mem_map] at h
  obtain ⟨a, _, heq⟩ := h
  injection heq with h1 h2
  subst h1
  exact h2.symm

/-- Witness for claim C7: the membership hypothesis discharged on a
concrete one-interface monitor and a concrete pernic reading. -/
theorem nicMonitor_per_interface_deltas_witness :
    NetworkInterfaceMonitor.mkRow 20 10 "eth0"
        ⟨2097152, 3145728, 15, 25, 0, 0, 0, 0⟩
        ⟨1048576, 2097152, 10, 20, 0, 0, 0, 0⟩
      = NetworkInterfaceMonitor.mkRow 20 (20 - 10) "eth0"
          ((fun _ => (⟨2097152, 3145728, 15, 25, 0, 0, 0, 0⟩ : NetIOCounters)) "eth0")
          ((fun _ => (⟨1048576, 2097152, 10, 20, 0, 0, 0, 0⟩ : NetIOCounters)) "eth0") :=
  nicMonitor_per_interface_deltas.1
    ⟨["eth0"], fun _ => ⟨1048576, 2097152, 10, 20, 0, 0, 0, 0⟩, 10⟩ 20
    (fun _ => ⟨2097152, 3145728, 15, 25, 0, 0, 0, 0⟩) "eth0"
    (NetworkInterfaceMonitor.mkRow 20 10 "eth0"
        ⟨2097152, 3145728, 15, 25, 0, 0, 0, 0⟩
        ⟨1048576, 2097152, 10, 20, 0, 0, 0, 0⟩)
    (by decide)

/-- Pointwise value of the accumulation loop: adding a metric dict into
the aggregate adds, at every key, the dict's value at that key. -/
lemma addDict_apply (d : List (String × ℚ)) :
    ∀ (curr : String → ℚ) (key : String),
      addDict curr d key = curr key + dictVal d key := by
  induction d with
  | nil => intro curr key; simp [addDict, dictVal]
  | cons kv rest ih =>
    intro curr key
    rw [addDict, ih]
    by_cases h : key = kv.1
    · simp only [dictVal, List.map_cons, List.sum_cons, if_pos h]
      ring
    · simp only [dictVal, List.map_cons, List.sum_cons, if_neg h]
      ring

/-- The enumeration loop computes, at every key, the starting aggregate
plus the summed contributions of the first candidate occurrence of each
not-yet-visited pid. -/
lemma pollLoop_eq_matchedOnce (pids : List Nat) (keywords : List String) :
    ∀ (procs : List Proc) (visited : List Nat) (curr : String → ℚ) (key : String),
      pollLoop pids keywords procs visited curr key
        = curr key
          + ((matchedOnce pids keywords procs visited).map (fun p => contrib p key)).sum := by
  intro procs
  induction procs with
  | nil => intro visited curr key; simp [pollLoop, matchedOnce]
  | cons p rest ih =>
    intro visited curr key
    by_cases hinfo : p.infoOk = true
    · by_cases hmatch : procMatches pids keywords p = true
      · by_cases hvis : visited.contains p.pid = true
        · have hmem : p.pid ∈ visited := by simpa using hvis
          have hcond : ¬(p.infoOk = true ∧ procMatches pids keywords p = true
              ∧ visited.contains p.pid = false) := by
            simp [hmem]
          simp only [pollLoop, matchedOnce, hinfo, hmatch, if_true,
            ProcessSetMonitor.statProc, hvis, if_neg hcond]
          exact ih visited curr key
        · have hvis' : visited.contains p.pid = false := by
            simpa using hvis
          have hcond : p.infoOk = true ∧ procMatches pids keywords p = true
              ∧ visited.contains p.pid = false := ⟨hinfo, hmatch, hvis'⟩
          cases hstat : p.stat with
          | none =>
            simp only [pollLoop, matchedOnce, hinfo, hmatch, if_true, true_and,
              ProcessSetMonitor.statProc, hvis', Bool.false_eq_true, if_false,
              hstat, List.map_cons, List.sum_cons]
            rw [ih (p.pid :: visited) curr key]
            simp [contrib, hstat]
          | some s =>
            simp only [pollLoop, matchedOnce, hinfo, hmatch, if_true, true_and,
              ProcessSetMonitor.statProc, hvis', Bool.false_eq_true, if_false,
              hstat, List.map_cons, List.sum_cons]
            rw [ih (p.pid :: visited) (addDict curr (ProcessSetMonitor.statDict s)) key,
              addDict_apply]
            have hc : contrib p key = dictVal (ProcessSetMonitor.statDict s) key := by
              simp [contrib, hstat]
            rw [hc]
            ring
      · have hcond : ¬(p.infoOk = true ∧ procMatches pids keywords p = true
            ∧ visited.contains p.pid = false) := by
          simp [hmatch]
        simp only [pollLoop, matchedOnce, hinfo, if_true, hmatch, Bool.false_eq_true,
          if_false, if_neg hcond]
        exact ih visited curr key
    · have hcond : ¬(p.infoOk = true ∧ procMatches pids keywords p = true
          ∧ visited.contains p.pid = false) := by
        simp [hinfo]
      simp only [pollLoop, matchedOnce, hinfo, Bool.false_eq_true, if_false,
        if_neg hcond]
      exact ih visited curr key

/-- The sorted metric-name order used for headers and rows. -/
lemma sortedKeys_eq :
    ProcessSetMonitor.sortedKeys
      = ["%CPU", "%MEM", "io.read", "io.read.MB", "io.write", "io.write.MB",
         "mem.rss.MB"] := by
  decide

/-- Pids already visited never occur in the matched-once subsequence. -/
lemma matchedOnce_visited_excluded (pids : List Nat) (keywords : List String) :
    ∀ (procs : List Proc) (visited : List Nat) (a : Nat), a ∈ visited →
      a ∉ (matchedOnce pids keywords procs visited).map (fun p => p.pid) := by
  intro procs
  induction procs with
  | nil => intro visited a _; simp [matchedOnce]
  | cons p rest ih =>
    intro visited a ha
    by_cases hc : p.infoOk = true ∧ procMatches pids keywords p = true
        ∧ visited.contains p.pid = false
    · simp only [matchedOnce, if_pos hc, List.map_cons, List.mem_cons, not_or]
      have hp : p.pid ∉ visited := by simpa using hc.2.2
      refine ⟨fun heq => hp (heq ▸ ha), ?_⟩
      exact ih (p.pid :: visited) a (List.mem_cons_of_mem _ ha)
    · simp only [matchedOnce, if_neg hc]
      exact ih visited a ha

/-- Within one poll the matched-once pids are pairwise distinct: a
process is counted at most once. -/
lemma matchedOnce_pid_nodup (pids : List Nat) (keywords : List String) :
    ∀ (procs : List Proc) (visited : List Nat),
      ((matchedOnce pids keywords procs visited).map (fun p => p.pid)).Nodup := by
  intro procs
  induction procs with
  | nil => intro visited; simp [matchedOnce]
  | cons p rest ih =>
    intro visited
    by_cases hc : p.infoOk = true ∧ procMatches pids keywords p = true
        ∧ visited.contains p.pid = false
    · simp only [matchedOnce, if_pos hc, List.map_cons, List.nodup_cons]
      exact ⟨matchedOnce_visited_excluded pids keywords rest (p.pid :: visited) p.pid
          (List.mem_cons_self _ _), ih (p.pid :: visited)⟩
    · simp only [matchedOnce, if_neg hc]
      exact ih visited

/-- The matched-once subsequence only looks at the visited set through
membership of the pids that actually occur. -/
lemma matchedOnce_congr_visited (pids : List Nat) (keywords : List String) :
    ∀ (procs : List Proc) (v1 v2 : List Nat),
      (∀ x, x ∈ procs.map (fun p => p.pid) → v1.contains x = v2.contains x) →
      matchedOnce pids keywords procs v1 = matchedOnce pids keywords procs v2 := by
  intro procs
  induction procs with
  | nil => intro v1 v2 _; rfl
  | cons p rest ih =>
    intro v1 v2 hv
    have hp : v1.contains p.pid = v2.contains p.pid := hv p.pid (by simp)
    have hrest : ∀ x, x ∈ rest.map (fun p => p.pid) →
        (p.pid :: v1).contains x = (p.pid :: v2).contains x := by
      intro x hx
      have h1 : v1.contains x = v2.contains x := hv x (by simp [hx])
      simp only [List.contains_cons, h1]
    have hrest' : ∀ x, x ∈ rest.map (fun p => p.pid) → v1.contains x = v2.contains x :=
      fun x hx => hv x (by simp [hx])
    by_cases hc : p.infoOk = true ∧ procMatches pids keywords p = true
        ∧ v1.contains p.pid = false
    · have hc2 : p.infoOk = true ∧ procMatches pids keywords p = true
          ∧ v2.contains p.pid = false := ⟨hc.1, hc.2.1, hp.symm.trans hc.2.2⟩
      simp only [matchedOnce, if_pos hc, if_pos hc2]
      rw [ih (p.pid :: v1) (p.pid :: v2) hrest]
    · have hc2 : ¬(p.infoOk = true ∧ procMatches pids keywords p = true
          ∧ v2.contains p.pid = false) := by
        intro h; exact hc ⟨h.1, h.2.1, hp.trans h.2.2⟩
      simp only [matchedOnce, if_neg hc, if_neg hc2]
      exact ih v1 v2 hrest'

/-- A pid not occurring among the remaining processes may be added to
the visited set without changing the matched-once subsequence. -/
lemma matchedOnce_fresh_visited (pids : List Nat) (keywords : List String)
    (a : Nat) (procs : List Proc) (visited : List Nat)
    (ha : a ∉ procs.map (fun p => p.pid)) :
    matchedOnce pids keywords procs (a :: visited)
      = matchedOnce pids keywords procs visited := by
  apply matchedOnce_congr_visited
  intro x hx
  have hxa : ¬(x = a) := fun h => ha (h ▸ hx)
  simp [List.contains_cons, hxa]

/-- Removing a candidate whose metric reads failed does not change the
summed contributions, provided its pid does not recur later. -/
lemma matchedOnce_skip_none (pids : List Nat) (keywords : List String)
    (p : Proc) (hstat : p.stat = none) :
    ∀ (xs ys : List Proc) (visited : List Nat) (key : String),
      p.pid ∉ ys.map (fun q => q.pid) →
      ((matchedOnce pids keywords (xs ++ p :: ys) visited).map
          (fun q => contrib q key)).sum
        = ((matchedOnce pids keywords (xs ++ ys) visited).map
            (fun q => contrib q key)).sum := by
  intro xs
  induction xs with
  | nil =>
    intro ys visited key hys
    simp only [List.nil_append]
    by_cases hc : p.infoOk = true ∧ procMatches pids keywords p = true
        ∧ visited.contains p.pid = false
    · simp only [matchedOnce, if_pos hc, List.map_cons, List.sum_cons]
      rw [matchedOnce_fresh_visited pids keywords p.pid ys visited hys]
      have hc0 : contrib p key = 0 := by simp [contrib, hstat]
      rw [hc0, zero_add]
    · simp only [matchedOnce, if_neg hc]
  | cons q rest ih =>
    intro ys visited key hys
    simp only [List.cons_append]
    by_cases hc : q.infoOk = true ∧ procMatches pids keywords q = true
        ∧ visited.contains q.pid = false
    · simp only [matchedOnce, if_pos hc, List.map_cons, List.sum_cons]
      rw [ih ys (q.pid :: visited) key hys]
    · simp only [matchedOnce, if_neg hc]
      exact ih ys visited key hys

/-- An enumeration in which no process passes the candidate test leaves
the aggregate untouched. -/
lemma pollLoop_no_match (pids : List Nat) (keywords : List String) :
    ∀ (procs : List Proc) (visited : List Nat) (curr : String → ℚ),
      (∀ p ∈ procs, p.infoOk = true → procMatches pids keywords p = false) →
      pollLoop pids keywords procs visited curr = curr := by
  intro procs
  induction procs with
  | nil => intro visited curr _; rfl
  | cons p rest ih =>
    intro visited curr h
    by_cases hinfo : p.infoOk = true
    · have hm : ¬(procMatches pids keywords p = true) := by
        simp [h p (List.mem_cons_self p rest) hinfo]
      simp only [pollLoop, if_pos hinfo, if_neg hm]
      exact ih visited curr (fun q hq => h q (List.mem_cons_of_mem _ hq))
    · simp only [pollLoop, if_neg hinfo]
      exact ih visited curr (fun q hq => h q (List.mem_cons_of_mem _ hq))

/-- Claim C4: within one ProcessGroupMonitor poll every process
contributes its metrics at most once — the aggregate at every key is the
sum over the first candidate occurrence of each distinct pid, with the
visited set starting empty for that very call (it is a local of
poll_stat and cannot survive to the next poll) — and the matched-once
pids are pairwise distinct; concretely, a process matched both by its
pid and by a keyword contributes exactly once. -/
theorem psMonitor_dedup_per_poll :
    (∀ (pids : List Nat) (keywords : List String) (procs : List Proc) (key : String),
        pollLoop pids keywords procs [] (fun _ => 0) key
          = ((matchedOnce pids keywords procs []).map (fun p => contrib p key)).sum)
    ∧
    (∀ (pids : List Nat) (keywords : List String) (procs : List Proc)
       (visited : List Nat),
        ((matchedOnce pids keywords procs visited).map (fun p => p.pid)).Nodup)
    ∧
    (procMatches [42] [] ⟨42, "Java", true,
        some ⟨⟨3, 1, 2097152, 0⟩, 5242880, 2, 7⟩⟩ = true ∧
     procMatches [] ["jav"] ⟨42, "Java", true,
        some ⟨⟨3, 1, 2097152, 0⟩, 5242880, 2, 7⟩⟩ = true ∧
     (ProcessSetMonitor.poll_stat ⟨[42], ["jav"], 90⟩ 100
        [⟨42, "Java", true, some ⟨⟨3, 1, 2097152, 0⟩, 5242880, 2, 7⟩⟩]).values
       = [7, 2, 3, 2, 1, 0, 5]) := by
  refine ⟨?_, fun pids kws procs visited => matchedOnce_pid_nodup pids kws procs visited,
    by decide, by decide, ?_⟩
  · intro pids keywords procs key
    rw [pollLoop_eq_matchedOnce]
    simp
  · simp +decide only [ProcessSetMonitor.poll_stat, pollLoop,
      ProcessSetMonitor.statProc, ProcessSetMonitor.statDict, sortedKeys_eq,
      List.map_cons, List.map_nil, List.contains_nil,
      show shr20 2097152 = 2 from rfl, show shr20 5242880 = 5 from rfl,
      show shr20 0 = 0 from rfl]
    simp +decide [addDict_apply, dictVal]

/-- Claim C5: a candidate process whose metric reads fail (it exited or
access was denied) is skipped silently: it contributes zero to every
metric — removing it from the enumeration leaves the written row
unchanged — the remaining processes are still processed, and poll_stat
is a total function, so no exception escapes. -/
theorem psMonitor_vanished_process_skipped
    (self : ProcessSetMonitor) (ts : Int) (xs ys : List Proc) (p : Proc)
    (hstat : p.stat = none) (hys : p.pid ∉ ys.map (fun q => q.pid)) :
    ProcessSetMonitor.poll_stat self ts (xs ++ p :: ys)
      = ProcessSetMonitor.poll_stat self ts (xs ++ ys) := by
  have hfun : pollLoop self.pids self.keywords (xs ++ p :: ys) [] (fun _ => 0)
      = pollLoop self.pids self.keywords (xs ++ ys) [] (fun _ => 0) := by
    funext key
    rw [pollLoop_eq_matchedOnce, pollLoop_eq_matchedOnce,
      matchedOnce_skip_none self.pids self.keywords p hstat xs ys [] key hys]
  simp only [ProcessSetMonitor.poll_stat]
  rw [hfun]

/-- Witness for claim C5: a process with pid 2 whose metric reads failed
is dropped from a concrete two-process enumeration without changing the
row. -/
theorem psMonitor_vanished_process_skipped_witness :
    ProcessSetMonitor.poll_stat ⟨[1, 2], [], 0⟩ 10
        [⟨1, "a", true, some ⟨⟨3, 0, 0, 0⟩, 0, 0, 0⟩⟩, ⟨2, "b", true, none⟩]
      = ProcessSetMonitor.poll_stat ⟨[1, 2], [], 0⟩ 10
          [⟨1, "a", true, some ⟨⟨3, 0, 0, 0⟩, 0, 0, 0⟩⟩] :=
  psMonitor_vanished_process_skipped ⟨[1, 2], [], 0⟩ 10
    [⟨1, "a", true, some ⟨⟨3, 0, 0, 0⟩, 0, 0, 0⟩⟩] [] ⟨2, "b", true, none⟩
    rfl (by simp)

/-- Claim C10: a poll in which no enumerated process passes the
candidate test still writes one complete row — timestamp, uptime, and
all seven aggregate metrics in sorted metric-name order, each equal
to 0; the row is neither omitted nor shortened and the function is
total, so no error is raised. -/
theorem psMonitor_no_match_zero_row
    (self : ProcessSetMonitor) (ts : Int) (procs : List Proc)
    (h : ∀ p ∈ procs, p.infoOk = true →
        procMatches self.pids self.keywords p = false) :
    ProcessSetMonitor.poll_stat self ts procs
        = ⟨ts, ts - self.starttime, [0, 0, 0, 0, 0, 0, 0]⟩ ∧
    ProcessSetMonitor.sortedKeys
        = ["%CPU", "%MEM", "io.read", "io.read.MB", "io.write", "io.write.MB",
           "mem.rss.MB"] := by
  refine ⟨?_, sortedKeys_eq⟩
  simp only [ProcessSetMonitor.poll_stat]
  rw [pollLoop_no_match self.pids self.keywords procs [] (fun _ => 0) h,
    sortedKeys_eq]
  rfl

/-- Witness for claim C10: a running process that matches neither the
pid set nor the keywords yields the all-zero seven-field row. -/
theorem psMonitor_no_match_zero_row_witness :
    ProcessSetMonitor.poll_stat ⟨[42], ["java"], 90⟩ 100 [⟨7, "bash", true, none⟩]
        = ⟨100, 100 - 90, [0, 0, 0, 0, 0, 0, 0]⟩ ∧
    ProcessSetMonitor.sortedKeys
        = ["%CPU", "%MEM", "io.read", "io.read.MB", "io.write", "io.write.MB",
           "mem.rss.MB"] :=
  psMonitor_no_match_zero_row ⟨[42], ["java"], 90⟩ 100 [⟨7, "bash", true, none⟩]
    (by
      intro p hp _
      have hpq : p = ⟨7, "bash", true, none⟩ := by simpa using hp
      subst hpq
      decide)

/-- Every event a tick enters carries that tick's absolute scheduled
time. -/
lemma tickEvents_time (starttime delay : Nat) (enableNic enablePs : Bool)
    (i : Nat) :
    ∀ e ∈ tickEvents starttime delay enableNic enablePs i,
      e.time = starttime + i * delay := by
  intro e he
  simp only [tickEvents, List.mem_append, List.mem_singleton] at he
  rcases he with (he | he) | he
  · subst he; rfl
  · cases enableNic <;> simp_all
  · cases enablePs <;> simp_all

/-- The tick indices of a loop trace count up from the starting index,
one per duration entry. -/
lemma loopTrace_ticks (starttime delay : Nat) (enableNic enablePs : Bool) :
    ∀ (durations : List Nat) (i clock : Nat),
      (loopTrace starttime delay enableNic enablePs i clock durations).map
          (fun tr => tr.tick)
        = List.range' i durations.length := by
  intro durations
  induction durations with
  | nil => intro i clock; rfl
  | cons d rest ih =>
    intro i clock
    simp only [loopTrace, List.map_cons, ih, List.length_cons, List.range'_succ]

/-- Every event of every tick of a loop trace is scheduled at
`starttime + tick * delay`, whatever the clock and the durations. -/
lemma loopTrace_event_times (starttime delay : Nat) (enableNic enablePs : Bool) :
    ∀ (durations : List Nat) (i clock : Nat) (tr : TickTrace),
      tr ∈ loopTrace starttime delay enableNic enablePs i clock durations →
      ∀ e ∈ tr.events, e.time = starttime + tr.tick * delay := by
  intro durations
  induction durations with
  | nil => intro i clock tr h; simp [loopTrace] at h
  | cons d rest ih =>
    intro i clock tr h
    simp only [loopTrace, List.mem_cons] at h
    rcases h with h | h
    · subst h
      exact tickEvents_time starttime delay enableNic enablePs i
    · exact ih (i + 1) _ tr h

/-- The (tick, entered events) part of a loop trace does not depend on
how long the polls took, nor on the clock the loop starts with. -/
lemma loopTrace_sched_indep (starttime delay : Nat) (enableNic enablePs : Bool) :
    ∀ (d1 : List Nat) (d2 : List Nat) (i c1 c2 : Nat), d1.length = d2.length →
      (loopTrace starttime delay enableNic enablePs i c1 d1).map
          (fun tr => (tr.tick, tr.events))
        = (loopTrace starttime delay enableNic enablePs i c2 d2).map
            (fun tr => (tr.tick, tr.events)) := by
  intro d1
  induction d1 with
  | nil =>
    intro d2 i c1 c2 h
    cases d2 with
    | nil => rfl
    | cons b rest2 => simp at h
  | cons a rest ih =>
    intro d2 i c1 c2 h
    cases d2 with
    | nil => simp at h
    | cons b rest2 =>
      simp only [loopTrace, List.map_cons]
      congr 1
      exact ih rest2 (i + 1) _ _ (by simpa using h)

/-- Claim C2: the loop's tick counter starts at 1 and increases by 1
per tick; every event of tick `i` is scheduled at the absolute time
`starttime + i * delay`; the scheduled (tick, events) sequence is
independent of how long the polls took; and with starttime 1000 and
delay 5, tick 3 is scheduled at 1015 even when every poll overruns its
slot by taking 9 seconds. -/
theorem scheduler_fixed_cadence :
    (∀ (starttime delay : Nat) (enableNic enablePs : Bool)
       (durations : List Nat) (clock : Nat),
        (loopTrace starttime delay enableNic enablePs 1 clock durations).map
            (fun tr => tr.tick)
          = List.range' 1 durations.length)
    ∧
    (∀ (starttime delay : Nat) (enableNic enablePs : Bool)
       (durations : List Nat) (clock : Nat) (tr : TickTrace),
        tr ∈ loopTrace starttime delay enableNic enablePs 1 clock durations →
        ∀ e ∈ tr.events, e.time = starttime + tr.tick * delay)
    ∧
    (∀ (starttime delay : Nat) (enableNic enablePs : Bool)
       (d1 d2 : List Nat) (c1 c2 : Nat), d1.length = d2.length →
        (loopTrace starttime delay enableNic enablePs 1 c1 d1).map
            (fun tr => (tr.tick, tr.events))
          = (loopTrace starttime delay enableNic enablePs 1 c2 d2).map
              (fun tr => (tr.tick, tr.events)))
    ∧
    ((loopTrace 1000 5 true true 1 1000 [9, 9, 9]).map
        (fun tr => (tr.tick, tr.events.map (fun e => e.time)))
      = [(1, [1005, 1005, 1005]), (2, [1010, 1010, 1010]),
         (3, [1015, 1015, 1015])]) := by
  refine ⟨fun st d en ep durs clock => loopTrace_ticks st d en ep durs 1 clock,
    fun st d en ep durs clock => loopTrace_event_times st d en ep durs 1 clock,
    fun st d en ep d1 d2 c1 c2 h => loopTrace_sched_indep st d en ep d1 d2 1 c1 c2 h,
    by decide⟩

/-- Witness for claim C2: in the concrete overrunning run, the
ResMonitor event of tick 3 is scheduled at 1000 + 3 * 5. -/
theorem scheduler_fixed_cadence_witness :
    (⟨1015, 2, MonKind.resMon⟩ : SchedEvent).time = 1000 + 3 * 5 :=
  scheduler_fixed_cadence.2.1 1000 5 true true [9, 9, 9] 1000
    ⟨3, tickEvents 1000 5 true true 3, 1023⟩ (by decide)
    ⟨1015, 2, MonKind.resMon⟩ (by decide)

/-- Claim C9: when the events of one tick share the same fire time they
execute strictly sequentially in the fixed order ProcessGroupMonitor
poll (priority 0), then NetworkMonitor poll (priority 1), then
ResourceMonitor poll (priority 2); runOrder is a sequential list, so no
two polls run concurrently. -/
theorem scheduler_tie_break_order (starttime delay i : Nat) :
    runOrder (tickEvents starttime delay true true i)
      = [⟨starttime + i * delay, 0, MonKind.psMon⟩,
         ⟨starttime + i * delay, 1, MonKind.nicMon⟩,
         ⟨starttime + i * delay, 2, MonKind.resMon⟩] := by
  simp [runOrder, tickEvents, insertEv, evLE]

/-- Claim C3 is refuted by the code (code bug): when the interrupt
arrives during startup inside `ResMonitor.__init__` after its sink is
opened, the notice is printed but the cleanup path itself fails — the
`finally` evaluates `rm.close()` with `rm` unbound — so the opened sink
is never closed and the process exits with a failure status; likewise an
interrupt inside `NetworkInterfaceMonitor.__init__` leaves the opened
per-NIC files unclosed.  Only the mid-poll interrupt path behaves as the
claim states (everything closed once, success exit). -/
theorem main_cleanup_startup_interrupt_bug :
    ((mainExec ⟨some ["eth0"], ["eth0"], [], TermPath.intrDuringRmInit⟩).rmOpened
        = true ∧
     (mainExec ⟨some ["eth0"], ["eth0"], [], TermPath.intrDuringRmInit⟩).rmClosed
        = 0 ∧
     (mainExec ⟨some ["eth0"], ["eth0"], [],
        TermPath.intrDuringRmInit⟩).noticePrinted = true ∧
     (mainExec ⟨some ["eth0"], ["eth0"], [],
        TermPath.intrDuringRmInit⟩).exitSuccess = false)
    ∧
    ((mainExec ⟨some ["eth0"], ["eth0"], [],
        TermPath.intrDuringNmInit⟩).nmFilesOpened = 1 ∧
     (mainExec ⟨some ["eth0"], ["eth0"], [],
        TermPath.intrDuringNmInit⟩).nmFilesClosed = 0 ∧
     (mainExec ⟨some ["eth0"], ["eth0"], [],
        TermPath.intrDuringNmInit⟩).exitSuccess = false)
    ∧
    ((mainExec ⟨some ["eth0"], ["eth0"], [], TermPath.intrMidPoll⟩).rmClosed
        = 1 ∧
     (mainExec ⟨some ["eth0"], ["eth0"], [], TermPath.intrMidPoll⟩).nmFilesOpened
        = 1 ∧
     (mainExec ⟨some ["eth0"], ["eth0"], [], TermPath.intrMidPoll⟩).nmFilesClosed
        = 1 ∧
     (mainExec ⟨some ["eth0"], ["eth0"], [], TermPath.intrMidPoll⟩).exitSuccess
        = true) := by
  decide

/-- Claim C8: NetworkInterfaceMonitor construction silently drops every
requested interface name the StatSource does not report as existing;
construction fails with the configuration error exactly when no
requested name survives; and in a run of `main` with that configuration
the error is raised before the scheduling loop is ever entered, fatally
(non-zero exit). -/
theorem nicMonitor_init_drops_unknown_fails_on_empty :
    (∀ (nics : Option (List String)) (existing : List String),
      NetworkInterfaceMonitor.initNics nics existing
          = Except.error "No NIC to monitor."
        ↔ (nics.getD []).filter (fun n => n ∈ existing) = [])
    ∧
    (∀ (nics : Option (List String)) (existing kept : List String),
      NetworkInterfaceMonitor.initNics nics existing = Except.ok kept →
      kept = (nics.getD []).filter (fun n => n ∈ existing) ∧ kept ≠ [])
    ∧
    (∀ (cfg : MainCfg), cfg.term ≠ TermPath.intrDuringRmInit →
      cfg.nicArg.isSome →
      (cfg.nicArg.getD []).filter (fun n => n ∈ cfg.existingNics) = [] →
      (mainExec cfg).loopEntered = false ∧ (mainExec cfg).exitSuccess = false ∧
        (mainExec cfg).nmFilesOpened = 0) := by
  refine ⟨?_, ?_, ?_⟩
  · intro nics existing
    simp only [NetworkInterfaceMonitor.initNics]
    by_cases h : (nics.getD []).filter (fun n => n ∈ existing) = []
    · simp [h]
    · simp [h]
  · intro nics existing kept hok
    simp only [NetworkInterfaceMonitor.initNics] at hok
    by_cases h : (nics.getD []).filter (fun n => n ∈ existing) = []
    · rw [if_pos h] at hok
      exact absurd hok (by simp)
    · rw [if_neg h] at hok
      have hk : kept = (nics.getD []).filter (fun n => n ∈ existing) :=
        (Except.ok.injEq _ _ ▸ hok).symm
      exact ⟨hk, hk ▸ h⟩
  · intro cfg h1 h2 h3
    have h2' : cfg.nicArg.isSome = true := h2
    simp only [mainExec, if_neg h1, h3, and_true, if_pos h2']

/-- Witness for claim C8: requested name wlan9 does not exist, so
construction errors, and a NIC-enabled run with only unknown names never
enters the loop; a known name lo survives the filtering. -/
theorem nicMonitor_init_drops_unknown_fails_on_empty_witness :
    (NetworkInterfaceMonitor.initNics (some ["wlan9"]) ["eth0", "lo"]
        = Except.error "No NIC to monitor.")
    ∧ (["lo"] = (List.filter (fun n => n ∈ ["eth0", "lo"])
          ((some ["lo", "wlan9"]).getD []) : List String) ∧ (["lo"] : List String) ≠ [])
    ∧ ((mainExec ⟨some ["wlan9"], ["eth0", "lo"], [],
          TermPath.intrMidPoll⟩).loopEntered = false ∧
       (mainExec ⟨some ["wlan9"], ["eth0", "lo"], [],
          TermPath.intrMidPoll⟩).exitSuccess = false ∧
       (mainExec ⟨some ["wlan9"], ["eth0", "lo"], [],
          TermPath.intrMidPoll⟩).nmFilesOpened = 0) :=
  ⟨(nicMonitor_init_drops_unknown_fails_on_empty.1 (some ["wlan9"])
      ["eth0", "lo"]).mpr (by simp),
   nicMonitor_init_drops_unknown_fails_on_empty.2.1 (some ["lo", "wlan9"])
     ["eth0", "lo"] ["lo"] (by simp [NetworkInterfaceMonitor.initNics]),
   nicMonitor_init_drops_unknown_fails_on_empty.2.2
     ⟨some ["wlan9"], ["eth0", "lo"], [], TermPath.intrMidPoll⟩
     (by decide) rfl (by simp)⟩
